import Mathlib

/-!
Verification of the embedded persistent-storage subsystem (`StorageManager`)
of the wechat-official-account-mcp repository.

The TypeScript class `StorageManager` is shallowly embedded here:

* JavaScript strings are modelled as `List Char` (`JStr`); `null`/`undefined`
  string values are modelled as `Option JStr`, with the JavaScript falsiness
  of `null`, `undefined` and the empty string made explicit.
* The external CryptoJS AES primitive is modelled as an ideal symmetric
  cipher (`aesEncrypt`/`aesDecrypt`): decryption under the encrypting key
  recovers the message, decryption under any other key fails (returns
  `none`, modelling the thrown malformed-UTF-8 error that the source
  catches).  All repository-level logic (`encryptValue`, `decryptValue`,
  the `enc:` tag, fallbacks) is translated from the source.
* SQLite tables are modelled as lists of row structures; each accessor's
  SQL statements are translated to explicit list operations, including the
  `NOT NULL` column constraints declared in `createTables`.
* The corruption-detect / repair / retry control flow of `saveConfig`,
  `repairDatabase` and `close` is modelled as pure functions over a small
  environment record describing which underlying I/O steps fail.
-/

namespace WechatMcp

/-- JavaScript strings are modelled as lists of characters. -/
abbrev JStr := List Char

/-! ## Model of the external CryptoJS AES primitive

`CryptoJS.AES.encrypt(value, key).toString()` / `CryptoJS.AES.decrypt` are
external library calls, not repository code.  They are modelled as an ideal
symmetric cipher: the ciphertext determines the key and message via an
injective encoding (a unary key-length header, a separator that cannot occur
in the header, then key and message), and decryption checks that its own
key's header is a prefix of the ciphertext.  Decryption under the same key
recovers the message; under any different key it returns `none`, which
models the exception thrown by `bytes.toString(CryptoJS.enc.Utf8)` on a
wrong-key decrypt that the source's `try/catch` converts to `null`. -/

/-- Header of the modelled AES ciphertext: unary key length, a separator,
then the key itself. -/
def aesHeader (key : JStr) : JStr := List.replicate key.length '#' ++ ';' :: key

/-- Modelled AES encryption: header followed by the message. -/
def aesEncrypt (key msg : JStr) : JStr := aesHeader key ++ msg

/-- Modelled AES decryption: succeeds exactly when the ciphertext starts
with this key's header, returning the remainder. -/
def aesDecrypt (key cipher : JStr) : Option JStr :=
  if cipher.take (aesHeader key).length = aesHeader key then
    some (cipher.drop (aesHeader key).length)
  else
    none

theorem aesDecrypt_aesEncrypt_same (key msg : JStr) :
    aesDecrypt key (aesEncrypt key msg) = some msg := by
  simp [aesDecrypt, aesEncrypt, List.take_left, List.drop_left]

/-- Auxiliary injectivity: if the header for `nB`/`kB` is an initial
segment of a list built from the header for `nA`/`kA`, the unary counts and
hence the header parts agree. -/
theorem replicate_sep_take_inj :
    ∀ (nB : Nat) (kB : JStr) (nA : Nat) (kA : JStr),
      (List.replicate nA '#' ++ ';' :: kA).take (List.replicate nB '#' ++ ';' :: kB).length
        = List.replicate nB '#' ++ ';' :: kB →
      nA = nB ∧ kA.take kB.length = kB := by
  intro nB
  induction nB with
  | zero =>
    intro kB nA kA h
    cases nA with
    | zero =>
      simp [List.take_succ_cons] at h
      exact ⟨rfl, h⟩
    | succ n =>
      rw [List.replicate_succ] at h
      simp [List.take_succ_cons] at h
  | succ m ih =>
    intro kB nA kA h
    cases nA with
    | zero =>
      rw [List.replicate_succ] at h
      simp [List.take_succ_cons] at h
    | succ n =>
      rw [List.replicate_succ, List.replicate_succ] at h
      simp only [List.cons_append, List.length_cons, List.take_succ_cons,
        List.cons.injEq, true_and] at h
      obtain ⟨h1, h2⟩ := ih kB n kA h
      exact ⟨by rw [h1], h2⟩

/-- Wrong-key safety of the modelled cipher: decrypting a ciphertext
produced under a different key fails. -/
theorem aesDecrypt_aesEncrypt_ne (kA kB msg : JStr) (hne : kA ≠ kB) :
    aesDecrypt kB (aesEncrypt kA msg) = none := by
  unfold aesDecrypt aesEncrypt aesHeader
  rw [if_neg]
  intro h
  rw [List.append_assoc, List.cons_append] at h
  obtain ⟨hlen, htake⟩ := replicate_sep_take_inj kB.length kB kA.length (kA ++ msg) h
  rw [← hlen, List.take_left] at htake
  exact hne htake

/-! ## Encrypted Field Codec (`StorageManager.encryptValue` / `decryptValue`)

Source (part_000, lines 379-398):

    private encryptValue(value: string | null | undefined): string | null {
      if (!value) return null;
      if (!this.secretKey) return value;
      const cipher = CryptoJS.AES.encrypt(value, this.secretKey).toString();
      return `enc:${cipher}`;
    }

    private decryptValue(value: string | null | undefined): string | null {
      if (!value) return null;
      if (!this.secretKey) return value;
      if (!value.startsWith('enc:')) return value;
      const cipher = value.slice(4);
      try {
        const bytes = CryptoJS.AES.decrypt(cipher, this.secretKey);
        const text = bytes.toString(CryptoJS.enc.Utf8);
        return text || null;
      } catch {
        return null;
      }
    }

`this.secretKey` is `process.env.WECHAT_MCP_SECRET_KEY` (string or
undefined); `!this.secretKey` is true for undefined and for the empty
string, so the secret is passed as `Option JStr` and both `none` and
`some []` select the pass-through branch, exactly as in the source. -/

/-- Fixed tag prefixed to every ciphertext the codec produces. -/
def encTag : JStr := "enc:".toList

/-- Translation of `StorageManager.encryptValue`; first argument is
`this.secretKey`, second is `value`. -/
def encryptValue : Option JStr → Option JStr → Option JStr
  | _, none => none
  | none, some v => if v = [] then none else some v
  | some key, some v =>
    if v = [] then none
    else if key = [] then some v
    else some (encTag ++ aesEncrypt key v)

/-- Translation of `StorageManager.decryptValue`; first argument is
`this.secretKey`, second is `value`. -/
def decryptValue : Option JStr → Option JStr → Option JStr
  | _, none => none
  | none, some v => if v = [] then none else some v
  | some key, some v =>
    if v = [] then none
    else if key = [] then some v
    else if v.take 4 = encTag then
      match aesDecrypt key (v.drop 4) with
      | none => none
      | some text => if text = [] then none else some text
    else some v

theorem take4_encTag (x : JStr) : (encTag ++ x).take 4 = encTag := by
  have h : (4 : Nat) = encTag.length := rfl
  rw [h, List.take_left]

theorem drop4_encTag (x : JStr) : (encTag ++ x).drop 4 = x := by
  have h : (4 : Nat) = encTag.length := rfl
  rw [h, List.drop_left]

theorem encTag_append_ne_nil (x : JStr) : encTag ++ x ≠ [] := by
  simp [encTag]

/-- Same-secret round trip on non-empty strings (used by several claims). -/
theorem decrypt_encrypt_same (key : Option JStr) (s : JStr) (hs : s ≠ []) :
    decryptValue key (encryptValue key (some s)) = some s := by
  match key with
  | none => simp [encryptValue, decryptValue, hs]
  | some k =>
    by_cases hk : k = []
    · simp [encryptValue, decryptValue, hs, hk]
    · simp only [encryptValue, decryptValue, if_neg hs, if_neg hk]
      rw [if_pos (take4_encTag (aesEncrypt k s)), drop4_encTag,
        aesDecrypt_aesEncrypt_same]
      simp [hs]
      intro he
      simp [encTag] at he

/-! ## JavaScript falsy-fallback helpers

The read paths use the pattern `this.decryptValue(x) || x`; `||` returns its
right operand when the left is `null`, `undefined` or the empty string. -/

/-- JavaScript `a || b` for a nullable string `a` and a plain string `b`. -/
def jsOr (a : Option JStr) (b : JStr) : JStr :=
  match a with
  | none => b
  | some s => if s = [] then b else s

/-- JavaScript `a || b` where both sides are nullable strings. -/
def jsOrOpt (a b : Option JStr) : Option JStr :=
  match a with
  | none => b
  | some s => if s = [] then b else some s

/-- JavaScript `a || null` for a nullable string. -/
def jsOrNull (a : Option JStr) : Option JStr :=
  match a with
  | none => none
  | some s => if s = [] then none else some s

/-! ## Error classification (`isCorruptError`)

Source (part_000, lines 39-48 and the inline copy at 437-442): an error is
corruption-classified when its message contains `corrupt` or `malformed`,
its `code` is `SQLITE_CORRUPT`, its `errno` is `11`, or its message matches
the case-insensitive regular expression `/SQLITE_CORRUPT/i`. -/

/-- Shape of a sqlite3 callback error as inspected by the source. -/
structure SqlError where
  msg : JStr
  code : Option JStr := none
  errno : Option Int := none
deriving DecidableEq

/-- Boolean prefix test on character lists. -/
def startsWithL (l p : JStr) : Bool := l.take p.length == p

/-- Substring containment, modelling JavaScript `String.includes`. -/
def containsSub : JStr → JStr → Bool
  | [], needle => needle.isEmpty
  | c :: t, needle => startsWithL (c :: t) needle || containsSub t needle

/-- Lower-casing a string, for the case-insensitive regex test. -/
def toLowerL (l : JStr) : JStr := l.map Char.toLower

def corruptNeedle : JStr := "corrupt".toList

def malformedNeedle : JStr := "malformed".toList

def sqliteCorruptCode : JStr := "SQLITE_CORRUPT".toList

def sqliteCorruptLower : JStr := "sqlite_corrupt".toList

/-- Translation of the corruption-signature classifier used by
`initialize` and (inlined) by `saveConfig`. -/
def isCorruptError (e : SqlError) : Bool :=
  containsSub e.msg corruptNeedle || containsSub e.msg malformedNeedle ||
    e.code == some sqliteCorruptCode || e.errno == some 11 ||
    containsSub (toLowerL e.msg) sqliteCorruptLower

/-! ## Entity row models

Each SQLite table is modelled as a list of row structures; the accessor
methods' SQL statements are translated to list operations.  `INSERT OR
REPLACE` removes any row with the conflicting primary key and appends the
new row.  Columns declared `NOT NULL` in `createTables` reject a `null`
binding: an accessor that would bind `null` into such a column fails with a
constraint error (the write functions return the resulting table together
with an optional error message). -/

/-- Argument record of `saveConfig` (shape of `WechatConfig` from the
repository's types module, as used by the storage layer). -/
structure WechatConfig where
  appId : JStr
  appSecret : JStr
  token : Option JStr := none
  encodingAESKey : Option JStr := none
deriving DecidableEq

/-- Row of the `config` table. -/
structure ConfigRow where
  id : Int
  app_id : JStr
  app_secret : JStr
  token : Option JStr
  encoding_aes_key : Option JStr
  created_at : Int
  updated_at : Int
deriving DecidableEq

def notNullConfigMsg : JStr := "NOT NULL constraint failed: config.app_secret".toList

/-- Row-level effect of `saveConfig`'s `INSERT OR REPLACE INTO config ...
VALUES (1, ...)`.  `app_secret` is `NOT NULL`, and `encryptValue` of an
empty or missing secret is `null`, which the engine rejects.  Note
`encryptValue key (some [])` and `encryptValue key none` agree, so the
source's `config.token || null` is dropped without change of meaning. -/
def saveConfigRows (key : Option JStr) (table : List ConfigRow) (cfg : WechatConfig)
    (now : Int) : List ConfigRow × Option JStr :=
  match encryptValue key (some cfg.appSecret) with
  | none => (table, some notNullConfigMsg)
  | some sec =>
      (table.filter (fun r => !(r.id == 1)) ++
        [⟨1, cfg.appId, sec, encryptValue key cfg.token,
          encryptValue key cfg.encodingAESKey, now, now⟩], none)

/-- Field decoding applied by `getConfig` to the row with `id = 1`. -/
def rowToConfig (key : Option JStr) (r : ConfigRow) : WechatConfig :=
  { appId := r.app_id
    appSecret := jsOr (decryptValue key (some r.app_secret)) r.app_secret
    token := jsOrOpt (decryptValue key r.token) r.token
    encodingAESKey := jsOrOpt (decryptValue key r.encoding_aes_key) r.encoding_aes_key }

/-- Row-level effect of `getConfig` (`SELECT * FROM config WHERE id = 1`). -/
def getConfigRows (key : Option JStr) (table : List ConfigRow) : Option WechatConfig :=
  (table.find? (fun r => r.id == 1)).map (rowToConfig key)

/-- Row-level effect of `clearConfig` (`DELETE FROM config WHERE id = 1`). -/
def clearConfigRows (table : List ConfigRow) : List ConfigRow :=
  table.filter (fun r => !(r.id == 1))

/-- Argument record of `saveAccessToken`. -/
structure AccessTokenInfo where
  accessToken : JStr
  expiresIn : Int
  expiresAt : Int
deriving DecidableEq

/-- Row of the `access_tokens` table. -/
structure AccessTokenRow where
  access_token : JStr
  expires_in : Int
  expires_at : Int
  created_at : Int
deriving DecidableEq

def notNullTokenMsg : JStr := "NOT NULL constraint failed: access_tokens.access_token".toList

/-- Row-level effect of `saveAccessToken`: `DELETE FROM access_tokens`
followed by a single `INSERT`.  The delete always runs first, so on an
insert failure the table has already been emptied.  `access_token` is
`NOT NULL`. -/
def saveAccessTokenRows (key : Option JStr) (_table : List AccessTokenRow)
    (info : AccessTokenInfo) (now : Int) : List AccessTokenRow × Option JStr :=
  match encryptValue key (some info.accessToken) with
  | none => ([], some notNullTokenMsg)
  | some tok => ([⟨tok, info.expiresIn, info.expiresAt, now⟩], none)

/-- Row selected by `ORDER BY created_at DESC LIMIT 1` (first row of
maximal `created_at`; ties are unspecified in SQLite and resolved here in
favour of the earlier row). -/
def latestRow : List AccessTokenRow → Option AccessTokenRow
  | [] => none
  | r :: rs =>
    match latestRow rs with
    | none => some r
    | some r2 => if r2.created_at > r.created_at then some r2 else some r

/-- Row-level effect of `getAccessToken`. -/
def getAccessTokenRows (key : Option JStr) (table : List AccessTokenRow) :
    Option AccessTokenInfo :=
  (latestRow table).map fun r =>
    ⟨jsOr (decryptValue key (some r.access_token)) r.access_token,
      r.expires_in, r.expires_at⟩

/-- Argument record of `saveMedia`. -/
structure MediaInfo where
  mediaId : JStr
  type : JStr
  createdAt : Int
  url : Option JStr := none
deriving DecidableEq

/-- Row of the `media` table. -/
structure MediaRow where
  media_id : JStr
  type : JStr
  created_at : Int
  url : Option JStr
deriving DecidableEq

/-- Row-level effect of `saveMedia` (`INSERT OR REPLACE INTO media ...`). -/
def saveMediaRows (table : List MediaRow) (m : MediaInfo) : List MediaRow :=
  table.filter (fun r => !(r.media_id == m.mediaId)) ++
    [⟨m.mediaId, m.type, m.createdAt, jsOrNull m.url⟩]

/-- Row-level effect of `getMedia`. -/
def getMediaRows (table : List MediaRow) (mediaId : JStr) : Option MediaInfo :=
  (table.find? (fun r => r.media_id == mediaId)).map fun r =>
    ⟨r.media_id, r.type, r.created_at, r.url⟩

/-- Insertion step for ordering rows by descending `created_at`. -/
def insertByCreatedDesc (r : MediaRow) : List MediaRow → List MediaRow
  | [] => [r]
  | x :: xs =>
    if x.created_at < r.created_at then r :: x :: xs else x :: insertByCreatedDesc r xs

/-- Ordering used by `ORDER BY created_at DESC`. -/
def sortByCreatedDesc : List MediaRow → List MediaRow
  | [] => []
  | x :: xs => insertByCreatedDesc x (sortByCreatedDesc xs)

/-- Row-level effect of `listMedia` with its optional type filter. -/
def listMediaRows (table : List MediaRow) (typeFilter : Option JStr) : List MediaInfo :=
  (sortByCreatedDesc (match typeFilter with
      | some t => table.filter (fun r => r.type == t)
      | none => table)).map fun r => ⟨r.media_id, r.type, r.created_at, r.url⟩

/-- Row of the `image_host_configs` table. -/
structure ImageHostConfigRow where
  host_type : JStr
  config_data : JStr
  created_at : Int
  updated_at : Int
deriving DecidableEq

def notNullImageHostMsg : JStr :=
  "NOT NULL constraint failed: image_host_configs.config_data".toList

/-- Row-level effect of `saveImageHostConfig`: an `INSERT OR REPLACE`
whose `created_at` is `COALESCE((SELECT created_at FROM image_host_configs
WHERE host_type = ?), now)`.  `configData` is the already-JSON-stringified
payload (`JSON.stringify(config)` in the source); `config_data` is
`NOT NULL`. -/
def saveImageHostConfigRows (key : Option JStr) (table : List ImageHostConfigRow)
    (hostType configData : JStr) (now : Int) : List ImageHostConfigRow × Option JStr :=
  let createdAt :=
    match table.find? (fun r => r.host_type == hostType) with
    | some r => r.created_at
    | none => now
  match encryptValue key (some configData) with
  | none => (table, some notNullImageHostMsg)
  | some v =>
      (table.filter (fun r => !(r.host_type == hostType)) ++
        [⟨hostType, v, createdAt, now⟩], none)

/-- Row-level effect of `getImageHostConfig` up to JSON parsing: the source
decrypts `config_data` (falling back to the raw column on a falsy decrypt)
and then `JSON.parse`s it; the parse step is outside this model, so the
decrypted payload string is returned. -/
def getImageHostConfigRows (key : Option JStr) (table : List ImageHostConfigRow)
    (hostType : JStr) : Option JStr :=
  (table.find? (fun r => r.host_type == hostType)).map fun r =>
    jsOr (decryptValue key (some r.config_data)) r.config_data

/-- Row of the `image_host_settings` table. -/
structure ImageHostSettingRow where
  id : Int
  current_host : JStr
  updated_at : Int
deriving DecidableEq

def wechatDefault : JStr := "wechat".toList

/-- Row-level effect of `setCurrentImageHost` (`INSERT OR REPLACE ...
VALUES (1, ?, ?)`). -/
def setCurrentImageHostRows (table : List ImageHostSettingRow) (hostType : JStr)
    (now : Int) : List ImageHostSettingRow :=
  table.filter (fun r => !(r.id == 1)) ++ [⟨1, hostType, now⟩]

/-- Row-level effect of `getCurrentImageHost`:
`row?.current_host || 'wechat'`. -/
def getCurrentImageHostRows (table : List ImageHostSettingRow) : JStr :=
  match table.find? (fun r => r.id == 1) with
  | none => wechatDefault
  | some r => if r.current_host = [] then wechatDefault else r.current_host

/-! ## Accessor entry guards

Every accessor except `saveConfig` begins with
`if (!this.db) throw new Error('Database not initialized')`.
`saveConfig` instead attempts `this.initialize()` when the handle is null
and only fails if that initialization fails.  The handle is modelled as
`Option Unit`; the outcome of the (side-effectful) `initialize()` call is an
explicit `Except` argument. -/

def notInitMsg : JStr := "Database not initialized".toList

def dbInitFailPre : JStr := "数据库未初始化且初始化失败: ".toList

/-- Entry behaviour of `saveConfig` (part_000, lines 403-434): initialize
on a null handle, then run the `INSERT OR REPLACE`. -/
def saveConfigEntry (db : Option Unit) (initResult : Except JStr Unit)
    (key : Option JStr) (table : List ConfigRow) (cfg : WechatConfig) (now : Int) :
    Except JStr (List ConfigRow) :=
  match db with
  | none =>
    match initResult with
    | .error e => .error (dbInitFailPre ++ e)
    | .ok _ =>
      match saveConfigRows key table cfg now with
      | (t, none) => .ok t
      | (_, some m) => .error m
  | some _ =>
    match saveConfigRows key table cfg now with
    | (t, none) => .ok t
    | (_, some m) => .error m

/-- Entry behaviour of `getConfig`. -/
def getConfigE (db : Option Unit) (key : Option JStr) (table : List ConfigRow) :
    Except JStr (Option WechatConfig) :=
  match db with
  | none => .error notInitMsg
  | some _ => .ok (getConfigRows key table)

/-- Entry behaviour of `clearConfig`. -/
def clearConfigE (db : Option Unit) (table : List ConfigRow) :
    Except JStr (List ConfigRow) :=
  match db with
  | none => .error notInitMsg
  | some _ => .ok (clearConfigRows table)

/-- Entry behaviour of `saveAccessToken`. -/
def saveAccessTokenE (db : Option Unit) (key : Option JStr)
    (table : List AccessTokenRow) (info : AccessTokenInfo) (now : Int) :
    Except JStr (List AccessTokenRow) :=
  match db with
  | none => .error notInitMsg
  | some _ =>
    match saveAccessTokenRows key table info now with
    | (t, none) => .ok t
    | (_, some m) => .error m

/-- Entry behaviour of `getAccessToken`. -/
def getAccessTokenE (db : Option Unit) (key : Option JStr)
    (table : List AccessTokenRow) : Except JStr (Option AccessTokenInfo) :=
  match db with
  | none => .error notInitMsg
  | some _ => .ok (getAccessTokenRows key table)

/-- Entry behaviour of `clearAccessToken`. -/
def clearAccessTokenE (db : Option Unit) (_table : List AccessTokenRow) :
    Except JStr (List AccessTokenRow) :=
  match db with
  | none => .error notInitMsg
  | some _ => .ok []

/-- Entry behaviour of `saveMedia`. -/
def saveMediaE (db : Option Unit) (table : List MediaRow) (m : MediaInfo) :
    Except JStr (List MediaRow) :=
  match db with
  | none => .error notInitMsg
  | some _ => .ok (saveMediaRows table m)

/-- Entry behaviour of `getMedia`. -/
def getMediaE (db : Option Unit) (table : List MediaRow) (mediaId : JStr) :
    Except JStr (Option MediaInfo) :=
  match db with
  | none => .error notInitMsg
  | some _ => .ok (getMediaRows table mediaId)

/-- Entry behaviour of `listMedia`. -/
def listMediaE (db : Option Unit) (table : List MediaRow) (typeFilter : Option JStr) :
    Except JStr (List MediaInfo) :=
  match db with
  | none => .error notInitMsg
  | some _ => .ok (listMediaRows table typeFilter)

/-- Entry behaviour of `saveImageHostConfig`. -/
def saveImageHostConfigE (db : Option Unit) (key : Option JStr)
    (table : List ImageHostConfigRow) (hostType configData : JStr) (now : Int) :
    Except JStr (List ImageHostConfigRow) :=
  match db with
  | none => .error notInitMsg
  | some _ =>
    match saveImageHostConfigRows key table hostType configData now with
    | (t, none) => .ok t
    | (_, some m) => .error m

/-- Entry behaviour of `getImageHostConfig`. -/
def getImageHostConfigE (db : Option Unit) (key : Option JStr)
    (table : List ImageHostConfigRow) (hostType : JStr) :
    Except JStr (Option JStr) :=
  match db with
  | none => .error notInitMsg
  | some _ => .ok (getImageHostConfigRows key table hostType)

/-- Entry behaviour of `deleteImageHostConfig`. -/
def deleteImageHostConfigE (db : Option Unit) (table : List ImageHostConfigRow)
    (hostType : JStr) : Except JStr (List ImageHostConfigRow) :=
  match db with
  | none => .error notInitMsg
  | some _ => .ok (table.filter (fun r => !(r.host_type == hostType)))

/-- Entry behaviour of `listImageHostConfigs`, up to JSON parsing (each
entry carries the decrypted payload string the source would parse). -/
def listImageHostConfigsE (db : Option Unit) (key : Option JStr)
    (table : List ImageHostConfigRow) : Except JStr (List (JStr × JStr)) :=
  match db with
  | none => .error notInitMsg
  | some _ =>
    .ok (table.map fun r =>
      (r.host_type, jsOr (decryptValue key (some r.config_data)) r.config_data))

/-- Entry behaviour of `setCurrentImageHost`. -/
def setCurrentImageHostE (db : Option Unit) (table : List ImageHostSettingRow)
    (hostType : JStr) (now : Int) : Except JStr (List ImageHostSettingRow) :=
  match db with
  | none => .error notInitMsg
  | some _ => .ok (setCurrentImageHostRows table hostType now)

/-- Entry behaviour of `getCurrentImageHost`. -/
def getCurrentImageHostE (db : Option Unit) (table : List ImageHostSettingRow) :
    Except JStr JStr :=
  match db with
  | none => .error notInitMsg
  | some _ => .ok (getCurrentImageHostRows table)

/-! ## Corruption-repair control flow of `saveConfig`

Source, part_000 lines 419-508.  The first `INSERT OR REPLACE` is attempted;
a failure is classified with the corruption signature.  Non-corruption
errors are rethrown directly.  On a corruption classification the method
runs `repairDatabase()` (which never rejects, see `repairDatabase` below),
reopens the file, reconfigures, recreates the schema, and retries the
insert exactly once; any failure inside that recovery block is wrapped into
a single fatal message built from the original error's message. -/

inductive FlowResult
  | ok
  | err (msg : JStr)
deriving DecidableEq

def corruptRepairFailPre : JStr := "数据库损坏且修复失败。错误: ".toList

def corruptRepairFailSuf : JStr :=
  "。请尝试重启服务，如果问题持续，可能需要删除数据库文件后重新创建。".toList

/-- Fatal message thrown by `saveConfig` when the repair-and-retry block
fails, interpolating the original error's message (the file path
interpolation is elided). -/
def corruptRepairFailMsg (orig : JStr) : JStr :=
  corruptRepairFailPre ++ orig ++ corruptRepairFailSuf

/-- Outcomes of the individual I/O steps inside `saveConfig` (a `none`
means the step succeeds). -/
structure SaveConfigEnv where
  firstRun : Option SqlError
  reopenErr : Option SqlError
  configureErr : Option SqlError
  retryRun : Option SqlError
deriving DecidableEq

/-- Control-flow model of `saveConfig` on an open handle: returns the
outcome, the number of `repairDatabase` invocations, and the number of
attempts of the original `INSERT OR REPLACE`. -/
def saveConfigFlow (env : SaveConfigEnv) : FlowResult × Nat × Nat :=
  match env.firstRun with
  | none => (.ok, 0, 1)
  | some e =>
    if isCorruptError e then
      match env.reopenErr with
      | some _ => (.err (corruptRepairFailMsg e.msg), 1, 1)
      | none =>
        match env.configureErr with
        | some _ => (.err (corruptRepairFailMsg e.msg), 1, 1)
        | none =>
          match env.retryRun with
          | none => (.ok, 1, 2)
          | some _ => (.err (corruptRepairFailMsg e.msg), 1, 2)
    else (.err e.msg, 0, 1)

/-- Control-flow model of `saveAccessToken` (part_000, lines 548-557): a
`DELETE` then an `INSERT`, with no catch block — every error propagates and
`repairDatabase` is never invoked (second component counts repairs). -/
def saveAccessTokenFlow (delRun insRun : Option SqlError) : FlowResult × Nat :=
  match delRun with
  | some e => (.err e.msg, 0)
  | none =>
    match insRun with
    | some e => (.err e.msg, 0)
    | none => (.ok, 0)

/-- Control-flow model of `saveMedia` (lines 594-602): one statement, no
catch block, no repair. -/
def saveMediaFlow (r : Option SqlError) : FlowResult × Nat :=
  match r with
  | some e => (.err e.msg, 0)
  | none => (.ok, 0)

/-- Control-flow model of `saveImageHostConfig` (lines 658-670): one
statement, no catch block, no repair. -/
def saveImageHostConfigFlow (r : Option SqlError) : FlowResult × Nat :=
  match r with
  | some e => (.err e.msg, 0)
  | none => (.ok, 0)

/-- Control-flow model of `setCurrentImageHost` (lines 734-745): one
statement, no catch block, no repair. -/
def setCurrentImageHostFlow (r : Option SqlError) : FlowResult × Nat :=
  match r with
  | some e => (.err e.msg, 0)
  | none => (.ok, 0)

/-! ## Repair Pipeline (`repairDatabase`, part_000 lines 197-281)

Close the current handle ignoring errors; best-effort backup of the file;
open the file fresh — on failure delete it (inside its own try/catch) and
resolve; on success run `VACUUM` — on success close and keep the compacted
file, on failure close the temporary handle, delete the file (again inside
a try/catch) and resolve.  Every branch calls `resolve()`; the promise
never rejects. -/

/-- Outcomes of the I/O steps inside `repairDatabase` (`true` = the step
fails). -/
structure RepairEnv where
  closeErr : Bool
  fileExists : Bool
  backupFails : Bool
  openFails : Bool
  vacuumFails : Bool
  unlinkFails : Bool
  closeTempErr : Bool
deriving DecidableEq

/-- State of the database file after repair. -/
inductive FileSt
  | corrupted
  | compacted
  | absent
deriving DecidableEq

/-- Result of `repairDatabase`: whether the promise resolved, the final
file state, and whether a backup copy was produced. -/
structure RepairResult where
  resolved : Bool
  file : FileSt
  backupMade : Bool
deriving DecidableEq

/-- Control-flow model of `repairDatabase`.  `closeErr` and `closeTempErr`
are only logged; a failing backup is only logged; a failing `unlinkSync` is
caught and logged, leaving the corrupted file in place. -/
def repairDatabase (env : RepairEnv) : RepairResult :=
  let backupMade := env.fileExists && !env.backupFails
  if env.openFails then
    if env.fileExists then
      if env.unlinkFails then ⟨true, .corrupted, backupMade⟩
      else ⟨true, .absent, backupMade⟩
    else ⟨true, .absent, backupMade⟩
  else
    if env.vacuumFails then
      if env.unlinkFails then ⟨true, .corrupted, backupMade⟩
      else ⟨true, .absent, backupMade⟩
    else ⟨true, .compacted, backupMade⟩

/-! ## Connection close (`close`, part_000 lines 764-778)

If `this.db` is set, the underlying `close` is invoked; its callback
rejects the promise on error and resolves otherwise.  `this.db` is never
assigned `null` here. -/

/-- Inputs of `close()`: whether a handle is held and the error, if any,
reported by the underlying close. -/
structure CloseEnv where
  dbPresent : Bool
  closeErr : Option JStr
deriving DecidableEq

/-- Promise outcome of `close()`. -/
inductive CloseOutcome
  | resolved
  | rejected (e : JStr)
deriving DecidableEq

/-- Control-flow model of `close()`: the outcome together with whether the
handle field is still set afterwards. -/
def closeFlow (env : CloseEnv) : CloseOutcome × Bool :=
  if env.dbPresent then
    match env.closeErr with
    | some e => (.rejected e, true)
    | none => (.resolved, true)
  else (.resolved, false)

/-! ## Shared codec lemmas -/

/-- Decrypting with no configured secret passes any non-empty value through
unchanged (the source returns `value` before ever looking at the tag). -/
theorem decrypt_unset_tagged (v : JStr) (hv : v ≠ []) :
    decryptValue none (some v) = some v := by
  simp [decryptValue, hv]

/-- Decrypting with an empty configured secret (a falsy env value) also
passes any non-empty value through unchanged. -/
theorem decrypt_emptykey_tagged (v : JStr) (hv : v ≠ []) :
    decryptValue (some []) (some v) = some v := by
  simp [decryptValue, hv]

/-- Shape of a ciphertext produced with a configured secret. -/
theorem encrypt_with_key (A s : JStr) (hA : A ≠ []) (hs : s ≠ []) :
    encryptValue (some A) (some s) = some (encTag ++ aesEncrypt A s) := by
  simp [encryptValue, hs, hA]

/-- Decrypting a ciphertext produced under secret `A` while the active
secret is a different non-empty secret `B` yields `null`. -/
theorem decrypt_encrypt_other (A B s : JStr) (hA : A ≠ []) (hB : B ≠ [])
    (hAB : A ≠ B) (hs : s ≠ []) :
    decryptValue (some B) (encryptValue (some A) (some s)) = none := by
  rw [encrypt_with_key A s hA hs]
  simp only [decryptValue, if_neg (encTag_append_ne_nil (aesEncrypt A s)), if_neg hB]
  rw [if_pos (take4_encTag _), drop4_encTag, aesDecrypt_aesEncrypt_ne A B s hAB]

/-! ## Claim theorems -/

/-- C1 counterexample: on the empty string the round trip is not the
identity — `encryptValue` maps `""` to `null` (the source's
`if (!value) return null`) and `decryptValue` of `null` is `null`, both
with and without a configured secret. -/
theorem c1_roundtrip_counterexample :
    decryptValue none (encryptValue none (some ([] : JStr))) = none ∧
    decryptValue (some ('a' :: [])) (encryptValue (some ('a' :: [])) (some ([] : JStr))) = none ∧
    (none : Option JStr) ≠ some [] := by
  decide

/-- C1 (amended): decrypting the result of encrypting `s` under the same
(possibly absent) secret returns `s` for every non-empty string `s`; for
the empty string the round trip yields `null`, not the empty string. -/
theorem c1_encrypt_decrypt_roundtrip (key : Option JStr) (s : JStr) :
    (s ≠ [] → decryptValue key (encryptValue key (some s)) = some s) ∧
    decryptValue key (encryptValue key (some [])) = none := by
  refine ⟨fun hs => decrypt_encrypt_same key s hs, ?_⟩
  match key with
  | none => simp [encryptValue, decryptValue]
  | some k => simp [encryptValue, decryptValue]

def sampleHi : JStr := "hi".toList

def sampleKeyA : JStr := "a".toList

def sampleKeyB : JStr := "b".toList

/-- Witness for C1 at the concrete input `s = "hi"` with secret `"a"`. -/
theorem c1_encrypt_decrypt_roundtrip_witness :
    decryptValue (some sampleKeyA) (encryptValue (some sampleKeyA) (some sampleHi)) =
      some sampleHi :=
  (c1_encrypt_decrypt_roundtrip (some sampleKeyA) sampleHi).1 (by decide)

/-- C2 counterexample: decrypting, with NO configured secret, a ciphertext
written under secret `"a"` does not return `null` — the source's
`if (!this.secretKey) return value` returns the `enc:`-tagged ciphertext
string unchanged. -/
theorem c2_wrong_key_counterexample :
    decryptValue none (encryptValue (some sampleKeyA) (some sampleHi)) ≠ none ∧
    decryptValue none (encryptValue (some sampleKeyA) (some sampleHi)) =
      encryptValue (some sampleKeyA) (some sampleHi) := by
  decide

/-- C2 (amended): decrypting ciphertext produced under a non-empty secret
`A` while the active secret is a different non-empty secret `B` returns
`null` (never corrupted bytes, never an exception); but when the secret is
removed from the environment (unset, or set to the falsy empty string),
decryption returns the `enc:`-tagged ciphertext unchanged rather than
`null`. -/
theorem c2_wrong_key_safety (A B s : JStr) (hA : A ≠ []) (hB : B ≠ [])
    (hAB : A ≠ B) (hs : s ≠ []) :
    decryptValue (some B) (encryptValue (some A) (some s)) = none ∧
    decryptValue none (encryptValue (some A) (some s)) =
      encryptValue (some A) (some s) ∧
    decryptValue (some []) (encryptValue (some A) (some s)) =
      encryptValue (some A) (some s) := by
  refine ⟨decrypt_encrypt_other A B s hA hB hAB hs, ?_, ?_⟩
  · rw [encrypt_with_key A s hA hs]
    exact decrypt_unset_tagged _ (encTag_append_ne_nil _)
  · rw [encrypt_with_key A s hA hs]
    exact decrypt_emptykey_tagged _ (encTag_append_ne_nil _)

/-- Witness for C2 at secrets `"a"`, `"b"` and plaintext `"hi"`. -/
theorem c2_wrong_key_safety_witness :
    decryptValue (some sampleKeyB) (encryptValue (some sampleKeyA) (some sampleHi)) = none :=
  (c2_wrong_key_safety sampleKeyA sampleKeyB sampleHi (by decide) (by decide)
    (by decide) (by decide)).1

def malformedErr : SqlError := ⟨"database disk image is malformed".toList, none, none⟩

/-- C3 counterexample: at the corruption-classified error
`database disk image is malformed`, `saveAccessToken` (and likewise
`saveMedia`) propagates the error directly: it never invokes the Repair
Pipeline (repair count `0`) and performs no retry — only `saveConfig`
carries the repair-and-retry logic. -/
theorem c3_accessor_repair_counterexample :
    isCorruptError malformedErr = true ∧
    saveAccessTokenFlow (some malformedErr) none = (.err malformedErr.msg, 0) ∧
    saveMediaFlow (some malformedErr) = (.err malformedErr.msg, 0) := by
  decide

/-- C3 (amended): only `saveConfig` classifies write failures and runs the
Repair Pipeline with exactly one retry (repairing once and attempting the
insert twice on a corruption-classified error, and propagating
non-corruption errors directly without repair); `saveAccessToken`,
`saveMedia`, `saveImageHostConfig` and `setCurrentImageHost` propagate
every error — corruption-classified or not — directly, never invoking
repair. -/
theorem c3_write_repair_policy (e : SqlError) :
    saveConfigFlow ⟨some e, none, none, none⟩ =
      (if isCorruptError e then (.ok, 1, 2) else (.err e.msg, 0, 1)) ∧
    saveConfigFlow ⟨some e, none, none, some e⟩ =
      (if isCorruptError e then (.err (corruptRepairFailMsg e.msg), 1, 2)
        else (.err e.msg, 0, 1)) ∧
    saveAccessTokenFlow (some e) none = (.err e.msg, 0) ∧
    saveAccessTokenFlow none (some e) = (.err e.msg, 0) ∧
    saveMediaFlow (some e) = (.err e.msg, 0) ∧
    saveImageHostConfigFlow (some e) = (.err e.msg, 0) ∧
    setCurrentImageHostFlow (some e) = (.err e.msg, 0) := by
  cases h : isCorruptError e <;>
    simp [saveConfigFlow, saveAccessTokenFlow, saveMediaFlow,
      saveImageHostConfigFlow, setCurrentImageHostFlow, h]

def c4Env : RepairEnv :=
  { closeErr := false, fileExists := true, backupFails := false, openFails := true,
    vacuumFails := false, unlinkFails := true, closeTempErr := false }

/-- C4 counterexample: when reopening the corrupted file fails AND the
fallback `unlinkSync` also fails (both failures the source catches), the
repair still reports success but the file is neither compacted nor
removed — it remains corrupted in place. -/
theorem c4_repair_counterexample :
    (repairDatabase c4Env).resolved = true ∧
    (repairDatabase c4Env).file = FileSt.corrupted ∧
    (repairDatabase c4Env).file ≠ FileSt.compacted ∧
    (repairDatabase c4Env).file ≠ FileSt.absent := by
  decide

/-- C4 (amended): `repairDatabase` always resolves without error — backup
failure, open failure and VACUUM failure are all non-fatal — and after it
resolves the file either holds a compacted database, or has been removed
so the next open creates a pristine empty one, or (only when the fallback
deletion itself failed, a failure the source catches and logs) the
corrupted file remains in place. -/
theorem c4_repair_always_resolves (env : RepairEnv) :
    (repairDatabase env).resolved = true ∧
    ((repairDatabase env).file = FileSt.compacted ∨
      (repairDatabase env).file = FileSt.absent ∨
      (env.unlinkFails = true ∧ (repairDatabase env).file = FileSt.corrupted)) := by
  rcases env with ⟨ce, fe, bf, opf, vf, uf, cte⟩
  cases opf <;> cases vf <;> cases uf <;> cases fe <;> simp [repairDatabase]

def closeErrMsg : JStr := "SQLITE_BUSY: unable to close due to unfinalized statements".toList

/-- C5 counterexample: when the underlying close reports an error, the
source calls `reject(err)` — `close()` rejects (throws to the caller)
rather than logging and returning normally. -/
theorem c5_close_counterexample :
    closeFlow ⟨true, some closeErrMsg⟩ = (CloseOutcome.rejected closeErrMsg, true) ∧
    CloseOutcome.rejected closeErrMsg ≠ CloseOutcome.resolved := by
  decide

/-- C5 (amended): `close()` resolves immediately when no handle is open;
with an open handle it resolves when the underlying close succeeds but
rejects with the underlying error when the close fails; and in every case
it leaves the handle field set (the source never assigns `this.db = null`
in `close`), so a repeat call re-invokes the underlying close instead of
being a no-op. -/
theorem c5_close_behaviour (e : JStr) :
    closeFlow ⟨false, none⟩ = (CloseOutcome.resolved, false) ∧
    closeFlow ⟨false, some e⟩ = (CloseOutcome.resolved, false) ∧
    closeFlow ⟨true, none⟩ = (CloseOutcome.resolved, true) ∧
    closeFlow ⟨true, some e⟩ = (CloseOutcome.rejected e, true) := by
  simp [closeFlow]

/-- Encrypting a non-empty string always yields a (non-null) stored value
that decrypts back to the plaintext under the same secret. -/
theorem encrypt_some (key : Option JStr) (s : JStr) (hs : s ≠ []) :
    ∃ v, encryptValue key (some s) = some v ∧ decryptValue key (some v) = some s := by
  match h : encryptValue key (some s) with
  | some v => exact ⟨v, rfl, by rw [← h]; exact decrypt_encrypt_same key s hs⟩
  | none =>
    exfalso
    match key with
    | none => simp [encryptValue, hs] at h
    | some k => by_cases hk : k = [] <;> simp [encryptValue, hs, hk] at h

def tokenInfoA : AccessTokenInfo := ⟨"tokA".toList, 1, 2⟩

def tokenInfoB : AccessTokenInfo := ⟨"tokB".toList, 3, 4⟩

def emptyTokenInfo : AccessTokenInfo := ⟨[], 7200, 99⟩

/-- C6 counterexample: for a credential `B` whose `accessToken` is the
empty string, `encryptValue` yields `null`, the `INSERT` violates the
`access_tokens.access_token NOT NULL` constraint after the `DELETE` has
already emptied the table, and `getAccessToken` afterwards returns `null`
rather than `B`'s fields. -/
theorem c6_credential_counterexample :
    (saveAccessTokenRows none [] tokenInfoA 10).2 = none ∧
    (saveAccessTokenRows none (saveAccessTokenRows none [] tokenInfoA 10).1
        emptyTokenInfo 11).2 = some notNullTokenMsg ∧
    (saveAccessTokenRows none (saveAccessTokenRows none [] tokenInfoA 10).1
        emptyTokenInfo 11).1 = [] ∧
    getAccessTokenRows none (saveAccessTokenRows none
        (saveAccessTokenRows none [] tokenInfoA 10).1 emptyTokenInfo 11).1 = none ∧
    (none : Option AccessTokenInfo) ≠ some emptyTokenInfo := by
  decide

/-- C6 (amended): for credentials whose `accessToken` is non-empty, after
`saveAccessToken(A)` then `saveAccessToken(B)` (from any starting table)
the save succeeds, at most one row exists, and `getAccessToken` returns
exactly `B`'s fields. -/
theorem c6_credential_exclusivity (key : Option JStr) (table : List AccessTokenRow)
    (a b : AccessTokenInfo) (n1 n2 : Int) (hb : b.accessToken ≠ []) :
    (saveAccessTokenRows key (saveAccessTokenRows key table a n1).1 b n2).2 = none ∧
    (saveAccessTokenRows key (saveAccessTokenRows key table a n1).1 b n2).1.length = 1 ∧
    getAccessTokenRows key
        (saveAccessTokenRows key (saveAccessTokenRows key table a n1).1 b n2).1 =
      some ⟨b.accessToken, b.expiresIn, b.expiresAt⟩ := by
  obtain ⟨tok, htok, hdec⟩ := encrypt_some key b.accessToken hb
  refine ⟨?_, ?_, ?_⟩
  · simp [saveAccessTokenRows, htok]
  · simp [saveAccessTokenRows, htok]
  · simp [saveAccessTokenRows, htok, getAccessTokenRows, latestRow, hdec, jsOr, hb]

/-- Witness for C6 with credentials `tokA` and `tokB` and no secret. -/
theorem c6_credential_exclusivity_witness :
    getAccessTokenRows none (saveAccessTokenRows none
        (saveAccessTokenRows none [] tokenInfoA 10).1 tokenInfoB 11).1 =
      some ⟨tokenInfoB.accessToken, tokenInfoB.expiresIn, tokenInfoB.expiresAt⟩ :=
  (c6_credential_exclusivity none [] tokenInfoA tokenInfoB 10 11 (by decide)).2.2

def emptyHostRow : ImageHostSettingRow := ⟨1, [], 5⟩

/-- C8 counterexample: a stored row with `current_host = ""` is not
returned as stored — `row?.current_host || 'wechat'` treats the empty
string as falsy and yields `'wechat'` instead. -/
theorem c8_current_host_counterexample :
    getCurrentImageHostRows [emptyHostRow] = wechatDefault ∧
    getCurrentImageHostRows [emptyHostRow] ≠ emptyHostRow.current_host := by
  decide

/-- C8 (amended): when the settings table has no row with id 1,
`getCurrentImageHost` returns the string `'wechat'` (not null, undefined
or an error); when a row with id 1 exists its `current_host` value is
returned if non-empty, while an empty stored value also yields
`'wechat'`. -/
theorem c8_current_host_default (s : JStr) (u : Int)
    (table rest : List ImageHostSettingRow) :
    (table.find? (fun r => r.id == 1) = none →
      getCurrentImageHostRows table = wechatDefault) ∧
    getCurrentImageHostRows (⟨1, s, u⟩ :: rest) =
      (if s = [] then wechatDefault else s) := by
  constructor
  · intro h
    simp [getCurrentImageHostRows, h]
  · have hpos : (fun r : ImageHostSettingRow => r.id == 1) ⟨1, s, u⟩ = true := rfl
    simp [getCurrentImageHostRows, List.find?_cons_of_pos _ hpos]

/-- Witness for C8 on the empty table. -/
theorem c8_current_host_default_witness :
    getCurrentImageHostRows [] = wechatDefault :=
  (c8_current_host_default [] 0 [] []).1 rfl

/-! ## List helpers for the upsert proofs -/

theorem filter_not_filter {α : Type} (p : α → Bool) (l : List α) :
    (l.filter (fun a => !(p a))).filter p = [] := by
  induction l with
  | nil => rfl
  | cons x xs ih => cases hpx : p x <;> simp [List.filter_cons, hpx, ih]

theorem find?_filter_not {α : Type} (p : α → Bool) (l : List α) :
    (l.filter (fun a => !(p a))).find? p = none := by
  induction l with
  | nil => rfl
  | cons x xs ih => cases hpx : p x <;> simp [List.filter_cons, hpx, ih]

theorem find?_append_none {α : Type} (p : α → Bool) (l1 l2 : List α)
    (h : l1.find? p = none) : (l1 ++ l2).find? p = l2.find? p := by
  induction l1 with
  | nil => rfl
  | cons x xs ih =>
    cases hpx : p x with
    | true =>
      rw [List.find?_cons_of_pos _ hpx] at h
      cases h
    | false =>
      have hneg : ¬p x = true := by simp [hpx]
      rw [List.find?_cons_of_neg _ hneg] at h
      rw [List.cons_append, List.find?_cons_of_neg _ hneg]
      exact ih h

/-- First stored entry for a provider type (the row the source's
`SELECT ... WHERE host_type = ?` statements return). -/
def storedEntry (table : List ImageHostConfigRow) (t : JStr) :
    Option ImageHostConfigRow :=
  table.find? (fun r => r.host_type == t)

/-- Table shape after one `saveImageHostConfig` whose encryption
succeeded. -/
theorem saveIHC_table (key : Option JStr) (table : List ImageHostConfigRow)
    (t c : JStr) (n : Int) (v : JStr) (hv : encryptValue key (some c) = some v) :
    (saveImageHostConfigRows key table t c n).1 =
      table.filter (fun r => !(r.host_type == t)) ++
        [⟨t, v,
          match table.find? (fun r => r.host_type == t) with
          | some r => r.created_at
          | none => n, n⟩] := by
  simp [saveImageHostConfigRows, hv]

theorem beq_self_list_char (t : JStr) : (t == t) = true := by
  simp

/-- Entry visible after one save: it is the freshly written row. -/
theorem storedEntry_after_save (key : Option JStr) (table : List ImageHostConfigRow)
    (t c : JStr) (n : Int) (v : JStr) (hv : encryptValue key (some c) = some v) :
    storedEntry (saveImageHostConfigRows key table t c n).1 t =
      some ⟨t, v,
        match table.find? (fun r => r.host_type == t) with
        | some r => r.created_at
        | none => n, n⟩ := by
  rw [storedEntry, saveIHC_table key table t c n v hv,
    find?_append_none _ _ _ (find?_filter_not _ _)]
  rw [List.find?_cons_of_pos]
  simp

/-- Rows for type `t` after one save: exactly the freshly written row. -/
theorem filter_after_save (key : Option JStr) (table : List ImageHostConfigRow)
    (t c : JStr) (n : Int) (v : JStr) (hv : encryptValue key (some c) = some v) :
    (saveImageHostConfigRows key table t c n).1.filter (fun r => r.host_type == t) =
      [⟨t, v,
        match table.find? (fun r => r.host_type == t) with
        | some r => r.created_at
        | none => n, n⟩] := by
  rw [saveIHC_table key table t c n v hv, List.filter_append, filter_not_filter]
  simp [List.filter_cons]

/-- C7 (as stated): saving a provider configuration twice (with non-empty
JSON payloads, as `JSON.stringify` always produces) leaves exactly one
stored entry for that type, carrying the second payload's (encrypted)
value with `updated_at` refreshed to the second save's timestamp, while
`created_at` is carried over unchanged from the entry the first save
wrote; and when no prior entry existed, the first save stamps `created_at`
with its own timestamp. -/
theorem c7_provider_upsert (key : Option JStr) (table : List ImageHostConfigRow)
    (t c1 c2 : JStr) (n1 n2 : Int) (hc1 : c1 ≠ []) (hc2 : c2 ≠ []) :
    ((saveImageHostConfigRows key (saveImageHostConfigRows key table t c1 n1).1
        t c2 n2).1.filter (fun r => r.host_type == t)).length = 1 ∧
    (storedEntry (saveImageHostConfigRows key (saveImageHostConfigRows key table t c1 n1).1
        t c2 n2).1 t).map (fun r => r.config_data) = encryptValue key (some c2) ∧
    (storedEntry (saveImageHostConfigRows key (saveImageHostConfigRows key table t c1 n1).1
        t c2 n2).1 t).map (fun r => r.updated_at) = some n2 ∧
    (storedEntry (saveImageHostConfigRows key (saveImageHostConfigRows key table t c1 n1).1
        t c2 n2).1 t).map (fun r => r.created_at) =
      (storedEntry (saveImageHostConfigRows key table t c1 n1).1 t).map
        (fun r => r.created_at) ∧
    (table.find? (fun r => r.host_type == t) = none →
      (storedEntry (saveImageHostConfigRows key table t c1 n1).1 t).map
        (fun r => r.created_at) = some n1) := by
  obtain ⟨v1, hv1, -⟩ := encrypt_some key c1 hc1
  obtain ⟨v2, hv2, -⟩ := encrypt_some key c2 hc2
  have hst1 := storedEntry_after_save key table t c1 n1 v1 hv1
  have hst2 := storedEntry_after_save key (saveImageHostConfigRows key table t c1 n1).1
    t c2 n2 v2 hv2
  have hfind1 : (saveImageHostConfigRows key table t c1 n1).1.find?
      (fun r => r.host_type == t) = storedEntry (saveImageHostConfigRows key table t c1 n1).1 t := rfl
  refine ⟨?_, ?_, ?_, ?_, ?_⟩
  · rw [filter_after_save key _ t c2 n2 v2 hv2]
    rfl
  · rw [hst2, hv2, hfind1, hst1]
    rfl
  · rw [hst2]
    rfl
  · rw [hst2, hfind1, hst1]
    rfl
  · intro hnone
    rw [hst1, hnone]
    rfl

/-- Witness data for C7. -/
def ghType : JStr := "github".toList

def ghCfg1 : JStr := "repo=x/y".toList

def ghCfg2 : JStr := "repo=x/z".toList

/-- Witness for C7 at type `github` with two concrete payloads, no secret,
timestamps 1 and 2. -/
theorem c7_provider_upsert_witness :
    (storedEntry (saveImageHostConfigRows none (saveImageHostConfigRows none [] ghType ghCfg1 1).1
        ghType ghCfg2 2).1 ghType).map (fun r => r.created_at) =
      (storedEntry (saveImageHostConfigRows none [] ghType ghCfg1 1).1 ghType).map
        (fun r => r.created_at) :=
  (c7_provider_upsert none [] ghType ghCfg1 ghCfg2 1 2 (by decide) (by decide)).2.2.2.1

/-- Only possible write error of `saveConfigRows` is the `NOT NULL`
constraint message. -/
theorem saveConfigRows_err (key : Option JStr) (table : List ConfigRow)
    (cfg : WechatConfig) (n : Int) :
    (saveConfigRows key table cfg n).2 = none ∨
      (saveConfigRows key table cfg n).2 = some notNullConfigMsg := by
  rcases h : encryptValue key (some cfg.appSecret) with - | v <;>
    simp [saveConfigRows, h]

/-- C9: with a null database handle, every accessor except `saveConfig`
immediately throws `Database not initialized`; `saveConfig` instead
attempts initialization — failing only when that initialization fails
(with the initialization-failure message) and otherwise proceeding exactly
as with an open handle, never raising `Database not initialized`. -/
theorem c9_accessor_guards (key : Option JStr) (cfgTable : List ConfigRow)
    (tokTable : List AccessTokenRow) (medTable : List MediaRow)
    (ihcTable : List ImageHostConfigRow) (ihsTable : List ImageHostSettingRow)
    (cfg : WechatConfig) (tok : AccessTokenInfo) (m : MediaInfo)
    (ht cd mid : JStr) (tf : Option JStr) (n : Int) (e : JStr) :
    getConfigE none key cfgTable = .error notInitMsg ∧
    clearConfigE none cfgTable = .error notInitMsg ∧
    saveAccessTokenE none key tokTable tok n = .error notInitMsg ∧
    getAccessTokenE none key tokTable = .error notInitMsg ∧
    clearAccessTokenE none tokTable = .error notInitMsg ∧
    saveMediaE none medTable m = .error notInitMsg ∧
    getMediaE none medTable mid = .error notInitMsg ∧
    listMediaE none medTable tf = .error notInitMsg ∧
    saveImageHostConfigE none key ihcTable ht cd n = .error notInitMsg ∧
    getImageHostConfigE none key ihcTable ht = .error notInitMsg ∧
    deleteImageHostConfigE none ihcTable ht = .error notInitMsg ∧
    listImageHostConfigsE none key ihcTable = .error notInitMsg ∧
    setCurrentImageHostE none ihsTable ht n = .error notInitMsg ∧
    getCurrentImageHostE none ihsTable = .error notInitMsg ∧
    saveConfigEntry none (.error e) key cfgTable cfg n = .error (dbInitFailPre ++ e) ∧
    saveConfigEntry none (.ok ()) key cfgTable cfg n =
      saveConfigEntry (some ()) (.ok ()) key cfgTable cfg n ∧
    saveConfigEntry (some ()) (.ok ()) key cfgTable cfg n ≠ .error notInitMsg := by
  refine ⟨rfl, rfl, rfl, rfl, rfl, rfl, rfl, rfl, rfl, rfl, rfl, rfl, rfl, rfl, rfl,
    rfl, ?_⟩
  have hs := saveConfigRows_err key cfgTable cfg n
  rcases hfull : saveConfigRows key cfgTable cfg n with ⟨tt, oe⟩
  rw [hfull] at hs
  cases oe with
  | none => simp [saveConfigEntry, hfull]
  | some msg =>
    simp only [saveConfigEntry, hfull]
    simp only [Option.some.injEq] at hs
    rcases hs with h | h
    · cases h
    · rw [h]
      intro hcontra
      have : notNullConfigMsg = notInitMsg := by
        injection hcontra
      exact absurd this (by decide)

/-- Witness for C9 on concrete empty tables and a concrete
initialization-failure message. -/
theorem c9_accessor_guards_witness :
    getConfigE none none [] = .error notInitMsg :=
  (c9_accessor_guards none [] [] [] [] [] ⟨[], [], none, none⟩ tokenInfoA
    ⟨[], [], 0, none⟩ [] [] [] none 0 []).1

/-- Decryption never yields the empty string: the source's
`return text || null` converts an empty decryption result to `null`, so
the read-side fallback `decryptValue(x) || x` triggers exactly when
decryption yields `null`. -/
theorem decrypt_ne_some_nil (key : Option JStr) (v : JStr) :
    decryptValue key (some v) ≠ some [] := by
  match key with
  | none =>
    by_cases hv : v = [] <;> simp [decryptValue, hv]
  | some k =>
    by_cases hv : v = []
    · simp [decryptValue, hv]
    · by_cases hk : k = []
      · simp [decryptValue, hv, hk]
      · simp only [decryptValue, if_neg hv, if_neg hk]
        by_cases htag : v.take 4 = encTag
        · rw [if_pos htag]
          match haes : aesDecrypt k (v.drop 4) with
          | none => simp
          | some text => by_cases ht : text = [] <;> simp [ht]
        · rw [if_neg htag]
          simp [hv]

/-- C10: reads substitute the raw stored column whenever decryption is
falsy.  Decryption of a wrong-secret ciphertext is `null` (and never the
empty string), so `getConfig` and `getAccessToken` hand the caller the
stored `enc:`-tagged ciphertext string itself rather than `null`. -/
theorem c10_read_fallback_raw (A B s aid : JStr) (c u ei ea ca : Int)
    (hA : A ≠ []) (hB : B ≠ []) (hAB : A ≠ B) (hs : s ≠ []) :
    decryptValue (some B) (some (encTag ++ aesEncrypt A s)) = none ∧
    (∀ v, decryptValue (some B) (some v) ≠ some []) ∧
    rowToConfig (some B)
        ⟨1, aid, encTag ++ aesEncrypt A s, some (encTag ++ aesEncrypt A s), none, c, u⟩ =
      ⟨aid, encTag ++ aesEncrypt A s, some (encTag ++ aesEncrypt A s), none⟩ ∧
    getAccessTokenRows (some B) [⟨encTag ++ aesEncrypt A s, ei, ea, ca⟩] =
      some ⟨encTag ++ aesEncrypt A s, ei, ea⟩ := by
  have hdec : decryptValue (some B) (some (encTag ++ aesEncrypt A s)) = none := by
    have h := decrypt_encrypt_other A B s hA hB hAB hs
    rwa [encrypt_with_key A s hA hs] at h
  have hdecn : decryptValue (some B) none = none := rfl
  refine ⟨hdec, fun v => decrypt_ne_some_nil (some B) v, ?_, ?_⟩
  · simp [rowToConfig, jsOr, jsOrOpt, hdec, hdecn]
  · simp [getAccessTokenRows, latestRow, jsOr, hdec]

/-- Witness for C10: wrong-secret read of a concrete stored token returns
the tagged ciphertext. -/
theorem c10_read_fallback_raw_witness :
    getAccessTokenRows (some sampleKeyB)
        [⟨encTag ++ aesEncrypt sampleKeyA sampleHi, 1, 2, 3⟩] =
      some ⟨encTag ++ aesEncrypt sampleKeyA sampleHi, 1, 2⟩ :=
  (c10_read_fallback_raw sampleKeyA sampleKeyB sampleHi sampleHi 0 0 1 2 3
    (by decide) (by decide) (by decide) (by decide)).2.2.2

end WechatMcp
